import Mathlib

/-!
Shallow embedding of the BLE device-provisioning engine of the finger_bot
frontend (src/frontend/src/app/(protected)/device-setup/page.tsx and the
provisioning revision embedded in src/frontend/src/app/login/page.tsx).
Pure data flow is modelled directly; the platform boundary (Web Bluetooth
reads/writes, JSON.parse, fetch) is modelled as an explicit environment of
outcomes, and each handler returns the observable trace it produces
(state updates, BLE commands issued, messages surfaced).
-/

namespace FingerBot

/-- BLE_MTU_SIZE constant from the source (20 bytes). -/
def BLE_MTU_SIZE : Nat := 20

/-- Fuelled chunk loop of sendBleCommand: for i = 0, MTU, 2*MTU, ... emit the
slice encodedCommand.slice(i, i + BLE_MTU_SIZE). The fuel argument only makes
the recursion structural; it is instantiated with the list length. -/
def chunkBytesAux : Nat → List Nat → List (List Nat)
  | 0, _ => []
  | _, [] => []
  | fuel + 1, a :: rest =>
      (a :: rest).take BLE_MTU_SIZE :: chunkBytesAux fuel ((a :: rest).drop BLE_MTU_SIZE)

/-- The sequence of MTU-sized slices the chunking for-loop writes. -/
def chunkBytes (data : List Nat) : List (List Nat) :=
  chunkBytesAux data.length data

/-- sendBleCommand, restricted to its observable write behaviour: the list of
writeValue payloads issued for the UTF-8 serialization data of the command.
Both page revisions share this logic (they differ only in inter-chunk delays). -/
def sendBleCommand (data : List Nat) : List (List Nat) :=
  if data.length ≤ BLE_MTU_SIZE then [data] else chunkBytes data

theorem chunkBytesAux_flatten :
    ∀ (fuel : Nat) (data : List Nat), data.length ≤ fuel →
      (chunkBytesAux fuel data).flatten = data := by
  intro fuel
  induction fuel with
  | zero =>
    intro data h
    have : data = [] := List.eq_nil_of_length_eq_zero (Nat.le_zero.mp h)
    subst this
    rfl
  | succ n ih =>
    intro data h
    match data with
    | [] => rfl
    | a :: rest =>
      have hlen : ((a :: rest).drop BLE_MTU_SIZE).length ≤ n := by
        simp only [List.length_drop, List.length_cons, BLE_MTU_SIZE] at h ⊢
        omega
      simp only [chunkBytesAux, List.flatten_cons, ih _ hlen]
      exact List.take_append_drop _ _

theorem chunkBytesAux_length :
    ∀ (fuel : Nat) (data : List Nat), data.length ≤ fuel →
      (chunkBytesAux fuel data).length =
        (data.length + (BLE_MTU_SIZE - 1)) / BLE_MTU_SIZE := by
  intro fuel
  induction fuel with
  | zero =>
    intro data h
    have : data = [] := List.eq_nil_of_length_eq_zero (Nat.le_zero.mp h)
    subst this
    rfl
  | succ n ih =>
    intro data h
    match data with
    | [] => rfl
    | a :: rest =>
      have hlen : ((a :: rest).drop BLE_MTU_SIZE).length ≤ n := by
        simp only [List.length_drop, List.length_cons, BLE_MTU_SIZE] at h ⊢
        omega
      simp only [chunkBytesAux, List.length_cons, ih _ hlen, List.length_drop]
      simp only [BLE_MTU_SIZE]
      omega

theorem chunkBytesAux_slices :
    ∀ (fuel : Nat) (data : List Nat), data.length ≤ fuel →
      chunkBytesAux fuel data =
        (List.range ((data.length + (BLE_MTU_SIZE - 1)) / BLE_MTU_SIZE)).map
          (fun i => (data.drop (BLE_MTU_SIZE * i)).take BLE_MTU_SIZE) := by
  intro fuel
  induction fuel with
  | zero =>
    intro data h
    have : data = [] := List.eq_nil_of_length_eq_zero (Nat.le_zero.mp h)
    subst this
    rfl
  | succ n ih =>
    intro data h
    match data with
    | [] => rfl
    | a :: rest =>
      have hlen : ((a :: rest).drop BLE_MTU_SIZE).length ≤ n := by
        simp only [List.length_drop, List.length_cons, BLE_MTU_SIZE] at h ⊢
        omega
      have harith :
          (((a :: rest).length + (BLE_MTU_SIZE - 1)) / BLE_MTU_SIZE) =
            ((((a :: rest).drop BLE_MTU_SIZE).length + (BLE_MTU_SIZE - 1)) / BLE_MTU_SIZE) + 1 := by
        simp only [List.length_drop, List.length_cons, BLE_MTU_SIZE]
        omega
      rw [harith, List.range_succ_eq_map, List.map_cons]
      simp only [chunkBytesAux]
      congr 1
      rw [ih _ hlen]
      simp only [List.length_drop, List.length_cons]
      rw [List.map_map]
      apply List.map_congr_left
      intro i _
      simp only [Function.comp_apply, List.drop_drop, Nat.mul_succ]
      rw [Nat.add_comm]

theorem chunkBytes_flatten (data : List Nat) : (chunkBytes data).flatten = data :=
  chunkBytesAux_flatten data.length data le_rfl

theorem chunkBytes_length (data : List Nat) :
    (chunkBytes data).length = (data.length + (BLE_MTU_SIZE - 1)) / BLE_MTU_SIZE :=
  chunkBytesAux_length data.length data le_rfl

theorem chunkBytes_slices (data : List Nat) :
    chunkBytes data =
      (List.range ((data.length + (BLE_MTU_SIZE - 1)) / BLE_MTU_SIZE)).map
        (fun i => (data.drop (BLE_MTU_SIZE * i)).take BLE_MTU_SIZE) :=
  chunkBytesAux_slices data.length data le_rfl

/-- C1: for every command whose UTF-8 JSON serialization has byte length at most
the 20-byte MTU, sendBleCommand issues exactly one write carrying the full
payload; for byte length above the MTU it issues exactly ceil(length / MTU)
writes, which are the consecutive MTU-sized slices of the payload in original
order, and whose concatenation equals the original serialized bytes. -/
theorem C1_sendBleCommand_chunking (data : List Nat) :
    (data.length ≤ BLE_MTU_SIZE → sendBleCommand data = [data]) ∧
    (BLE_MTU_SIZE < data.length →
      (sendBleCommand data).length = (data.length + (BLE_MTU_SIZE - 1)) / BLE_MTU_SIZE ∧
      (sendBleCommand data).flatten = data ∧
      sendBleCommand data =
        (List.range ((data.length + (BLE_MTU_SIZE - 1)) / BLE_MTU_SIZE)).map
          (fun i => (data.drop (BLE_MTU_SIZE * i)).take BLE_MTU_SIZE)) := by
  constructor
  · intro h
    simp [sendBleCommand, h]
  · intro h
    have hgt : ¬ data.length ≤ BLE_MTU_SIZE := Nat.not_le.mpr h
    simp only [sendBleCommand, if_neg hgt]
    exact ⟨chunkBytes_length data, chunkBytes_flatten data, chunkBytes_slices data⟩

/-- Witness for C1: a 45-byte payload is sent as 3 writes whose concatenation
is the payload, and a 7-byte payload is sent as a single full write. -/
theorem C1_witness :
    (BLE_MTU_SIZE < (List.range 45).length ∧
      (sendBleCommand (List.range 45)).length = 3 ∧
      (sendBleCommand (List.range 45)).flatten = List.range 45) ∧
    ((List.range 7).length ≤ BLE_MTU_SIZE ∧
      sendBleCommand (List.range 7) = [List.range 7]) := by
  refine ⟨⟨by decide, ?_, ((C1_sendBleCommand_chunking (List.range 45)).2 (by decide)).2.1⟩,
    ⟨by decide, (C1_sendBleCommand_chunking (List.range 7)).1 (by decide)⟩⟩
  have h := ((C1_sendBleCommand_chunking (List.range 45)).2 (by decide)).1
  rw [h]
  decide

/-- JavaScript string truthiness: the empty string is falsy. -/
def jsTruthy (s : String) : Bool := !(s == "")

/-- Truthiness of an optional string field: null or the empty string is falsy. -/
def strTruthy : Option String → Bool
  | none => false
  | some s => jsTruthy s

/-- The fields of a parsed JSON response that the provisioning code inspects. -/
structure Json where
  status : Option String := none
  message : Option String := none
  networks : Option (List String) := none
  mac : Option String := none
deriving DecidableEq

/-- Outcome of one characteristic.readValue call, as observed after UTF-8
decoding and JSON parsing: the read may reject with an exception message,
return an empty text, return a text the JSON parser throws on, or return a
parsed object. -/
inductive ReadOutcome where
  | raise (msg : String)
  | empty
  | malformed
  | json (j : Json)
deriving DecidableEq

/-- listStartsWith l pat: pat is an initial run of l. -/
def listStartsWith : List Char → List Char → Bool
  | _, [] => true
  | [], _ :: _ => false
  | a :: as, b :: bs => a == b && listStartsWith as bs

/-- listContainsSub l pat: pat occurs as a contiguous run inside l. -/
def listContainsSub : List Char → List Char → Bool
  | [], pat => listStartsWith [] pat
  | l@(_ :: as), pat => listStartsWith l pat || listContainsSub as pat

/-- Model of the JavaScript String.prototype.includes test. -/
def jsIncludes (s pat : String) : Bool := listContainsSub s.toList pat.toList

/-- Truthiness of response?.networks: a present array, even an empty one, is
truthy; a missing response or missing field is falsy. -/
def networksTruthy : Option Json → Bool
  | none => false
  | some j => j.networks.isSome

/-- Result of the scan read loop: the final response variable, the argument of
setWifiNetworks when it was called, the number of readValue calls, and the
number of 1000ms inter-attempt sleeps. -/
structure LoopOut where
  resp : Option Json
  setNets : Option (List String)
  reads : Nat
  sleeps : Nat
deriving DecidableEq

/-- The while loop of scanWifiNetworks over the environment env of successive
read outcomes: while (retries > 0 && !response?.networks) it reads once,
updates response when a parse succeeds, stores the list and breaks on a
non-empty networks array, treats read and parse exceptions as a consumed
attempt, then decrements retries and sleeps 1000ms when retries stays
positive. -/
def scanLoop (env : Nat → ReadOutcome) : Nat → Nat → Option Json → LoopOut
  | 0, _, response => ⟨response, none, 0, 0⟩
  | retries + 1, k, response =>
    if networksTruthy response then ⟨response, none, 0, 0⟩
    else
      match env k with
      | ReadOutcome.json j =>
        match j.networks with
        | some l =>
          if l = [] then
            let out := scanLoop env retries (k + 1) (some j)
            ⟨out.resp, out.setNets, out.reads + 1,
              out.sleeps + (if 0 < retries then 1 else 0)⟩
          else ⟨some j, some l, 1, 0⟩
        | none =>
          let out := scanLoop env retries (k + 1) (some j)
          ⟨out.resp, out.setNets, out.reads + 1,
            out.sleeps + (if 0 < retries then 1 else 0)⟩
      | _ =>
        let out := scanLoop env retries (k + 1) response
        ⟨out.resp, out.setNets, out.reads + 1,
          out.sleeps + (if 0 < retries then 1 else 0)⟩

/-- Environment of one scanWifiNetworks call: whether the scan_wifi write
throws (message of the exception), and the successive read outcomes. -/
structure ScanEnv where
  writeErr : Option String
  reads : Nat → ReadOutcome

/-- Observable outcome of scanWifiNetworks: the setWifiNetworks argument if it
was called, the setError argument if any, the final response variable, the
number of readValue calls, and the total scheduled waiting time in ms
(warm-up plus inter-attempt sleeps). -/
structure ScanOutcome where
  networksSet : Option (List String)
  errorMsg : Option String
  finalResp : Option Json
  readsCount : Nat
  delayMs : Nat
deriving DecidableEq

/-- scanWifiNetworks of the device-setup page (the login-page revision has the
identical scan logic): send scan_wifi, wait 3000ms, run the retry read loop,
and throw (caught locally, surfaced via setError) when the final response has
no networks field. -/
def scanWifiNetworks (env : ScanEnv) : ScanOutcome :=
  match env.writeErr with
  | some m => ⟨none, some ("Failed to scan WiFi networks: " ++ m), none, 0, 0⟩
  | none =>
    let out := scanLoop env.reads 5 0 none
    if networksTruthy out.resp then
      ⟨out.setNets, none, out.resp, out.reads, 3000 + 1000 * out.sleeps⟩
    else
      ⟨out.setNets,
        some "Failed to scan WiFi networks: Failed to scan WiFi networks after multiple attempts",
        out.resp, out.reads, 3000 + 1000 * out.sleeps⟩

theorem scanLoop_bounds (env : Nat → ReadOutcome) :
    ∀ (retries k : Nat) (r : Option Json),
      (scanLoop env retries k r).reads ≤ retries ∧
      (scanLoop env retries k r).sleeps ≤ retries - 1 := by
  intro retries
  induction retries with
  | zero => intro k r; simp [scanLoop]
  | succ n ih =>
    intro k r
    have hone : ∀ r' : Option Json,
        (scanLoop env n (k + 1) r').reads + 1 ≤ n + 1 ∧
        (scanLoop env n (k + 1) r').sleeps + (if 0 < n then 1 else 0) ≤ n := by
      intro r'
      have h := ih (k + 1) r'
      by_cases hn : 0 < n
      · simp only [hn, if_true]; omega
      · simp only [hn, if_false]; omega
    simp only [scanLoop, Nat.add_sub_cancel]
    by_cases hresp : networksTruthy r
    · simp [hresp]
    · simp only [hresp, Bool.false_eq_true, if_false]
      split
      · rename_i j heq
        split
        · split
          · exact hone (some j)
          · refine ⟨?_, ?_⟩ <;> (dsimp only; omega)
        · exact hone (some j)
      · exact hone r

/-- C3: the retry loop of a read-after-write exchange performs at most 5 read
operations, and its total scheduled waiting time is at most
(5 - 1) * 1000ms of inter-attempt delay plus the one-time 3000ms warm-up
taken before entering the loop for a WiFi scan. -/
theorem C3_withRetry_bounds (env : ScanEnv) :
    (scanWifiNetworks env).readsCount ≤ 5 ∧
    (scanWifiNetworks env).delayMs ≤ (5 - 1) * 1000 + 3000 := by
  have h := scanLoop_bounds env.reads 5 0 none
  cases hw : env.writeErr with
  | some m => simp [scanWifiNetworks, hw]
  | none =>
    simp only [scanWifiNetworks, hw]
    by_cases ht : networksTruthy (scanLoop env.reads 5 0 none).resp <;>
      simp only [ht, if_true, Bool.false_eq_true, if_false] <;>
      exact ⟨h.1, by omega⟩

theorem scanLoop_setNets (env : Nat → ReadOutcome) :
    ∀ (retries k : Nat) (r : Option Json) (l : List String),
      (scanLoop env retries k r).setNets = some l →
      l ≠ [] ∧ networksTruthy (scanLoop env retries k r).resp = true := by
  intro retries
  induction retries with
  | zero => intro k r l h; simp [scanLoop] at h
  | succ n ih =>
    intro k r l
    simp only [scanLoop, Nat.add_sub_cancel]
    by_cases hresp : networksTruthy r
    · simp [hresp]
    · simp only [hresp, Bool.false_eq_true, if_false]
      split
      · rename_i j heq
        split
        · split
          · intro h
            dsimp only at h ⊢
            exact ih (k + 1) (some j) l h
          · rename_i l2 hnet hcond
            intro h
            dsimp only at h
            injection h with h2
            subst h2
            refine ⟨hcond, ?_⟩
            simp [networksTruthy, hnet]
        · rename_i hnet
          intro h
          dsimp only at h ⊢
          exact ih (k + 1) (some j) l h
      · intro h
        dsimp only at h ⊢
        exact ih (k + 1) r l h

theorem scanWifiNetworks_networksSet (env : ScanEnv) (l : List String)
    (h : (scanWifiNetworks env).networksSet = some l) :
    l ≠ [] ∧ (scanWifiNetworks env).errorMsg = none := by
  cases hw : env.writeErr with
  | some m => simp [scanWifiNetworks, hw] at h
  | none =>
    have hs := scanLoop_setNets env.reads 5 0 none l
    simp only [scanWifiNetworks, hw] at h ⊢
    by_cases ht : networksTruthy (scanLoop env.reads 5 0 none).resp
    · simp only [ht, if_true] at h ⊢
      exact ⟨(hs h).1, trivial⟩
    · simp only [ht, Bool.false_eq_true, if_false] at h ⊢
      exact absurd (hs h).2 (by simp [ht])

/-- Environment of one connectToDevice call of the device-setup page: whether
the Web Bluetooth API is available, whether session acquisition (device
picker, GATT connect, service and characteristic lookup) throws, and the
environment of the WiFi scan that follows. -/
structure ConnectEnv where
  bleSupported : Bool
  sessionErr : Option String
  scanEnv : ScanEnv

/-- Observable outcome of connectToDevice: the active step after the call
(0 = Connect, 1 = ConfigureWifi), the surfaced error if any, and the stored
network list if setWifiNetworks was called. -/
structure ConnectOutcome where
  step : Nat
  errorMsg : Option String
  networksSet : Option (List String)
deriving DecidableEq

namespace DeviceSetup

/-- connectToDevice of the device-setup page: on an unsupported browser or a
session-acquisition failure the catch block surfaces the error and the step
stays at 0; once the session is acquired, scanWifiNetworks runs (it catches
its own failures internally) and setActiveStep(1) runs unconditionally
afterwards. -/
def connectToDevice (env : ConnectEnv) : ConnectOutcome :=
  if env.bleSupported = false then
    ⟨0, some ("Failed to connect: " ++
      "Web Bluetooth API is not supported in your browser. " ++
      "Please use Chrome, Edge, or Opera on desktop, or Chrome for Android."), none⟩
  else
    match env.sessionErr with
    | some m => ⟨0, some ("Failed to connect: " ++ m), none⟩
    | none =>
      let s := scanWifiNetworks env.scanEnv
      ⟨1, s.errorMsg, s.networksSet⟩

end DeviceSetup

/-- Environment where the session is acquired but every read returns an empty
payload, so the scan exhausts its five attempts without a network list. -/
def envC4 : ConnectEnv := ⟨true, none, ⟨none, fun _ => ReadOutcome.empty⟩⟩

/-- Session acquisition failure environment: the user dismisses the device
picker. -/
def envC4w : ConnectEnv :=
  ⟨true, some "User cancelled the requestDevice chooser.", ⟨none, fun _ => ReadOutcome.empty⟩⟩

/-- C4 counterexample: with the session acquired and the scan exhausting all
five read attempts without an acceptable network list, the exhaustion error is
surfaced but the step still advances to ConfigureWifi (1) instead of remaining
at Connect (0), refuting the claim that the step index is not advanced on
failure. -/
theorem C4_counterexample :
    (DeviceSetup.connectToDevice envC4).errorMsg =
      some "Failed to scan WiFi networks: Failed to scan WiFi networks after multiple attempts" ∧
    (DeviceSetup.connectToDevice envC4).step = 1 := by
  exact ⟨rfl, rfl⟩

/-- C4 (amended): if session acquisition (support check, device picker, GATT
connect, service or characteristic lookup) fails, the step stays at Connect
with an error surfaced; once a session is acquired the step always advances to
ConfigureWifi, even when the scan fails, because scanWifiNetworks swallows its
own errors: scan retry exhaustion surfaces an error message but does not
prevent the advance, and the network list is populated only when a read
produced a non-empty networks array (in which case no error is surfaced). -/
theorem C4_amended_connect_step (env : ConnectEnv) :
    (env.bleSupported = false →
      (DeviceSetup.connectToDevice env).step = 0 ∧
      ((DeviceSetup.connectToDevice env).errorMsg).isSome = true) ∧
    (env.bleSupported = true → ∀ m, env.sessionErr = some m →
      (DeviceSetup.connectToDevice env).step = 0 ∧
      (DeviceSetup.connectToDevice env).errorMsg = some ("Failed to connect: " ++ m)) ∧
    (env.bleSupported = true → env.sessionErr = none →
      (DeviceSetup.connectToDevice env).step = 1 ∧
      (∀ l, (DeviceSetup.connectToDevice env).networksSet = some l →
        l ≠ [] ∧ (DeviceSetup.connectToDevice env).errorMsg = none) ∧
      (env.scanEnv.writeErr = none →
        networksTruthy (scanLoop env.scanEnv.reads 5 0 none).resp = false →
        ((DeviceSetup.connectToDevice env).errorMsg).isSome = true)) := by
  refine ⟨?_, ?_, ?_⟩
  · intro h
    simp [DeviceSetup.connectToDevice, h]
  · intro hsupp m herr
    simp [DeviceSetup.connectToDevice, hsupp, herr]
  · intro hsupp herr
    simp only [DeviceSetup.connectToDevice, hsupp, Bool.true_eq_false, if_false, herr]
    refine ⟨trivial, ?_, ?_⟩
    · intro l h
      exact scanWifiNetworks_networksSet env.scanEnv l h
    · intro hw ht
      simp [scanWifiNetworks, hw, ht]

/-- Witness for C4 (amended): a cancelled device picker keeps the step at
Connect with the error surfaced, while a scan that exhausts its retries still
advances the step to ConfigureWifi. -/
theorem C4_witness :
    ((DeviceSetup.connectToDevice envC4w).step = 0 ∧
      (DeviceSetup.connectToDevice envC4w).errorMsg =
        some ("Failed to connect: " ++ "User cancelled the requestDevice chooser.")) ∧
    ((DeviceSetup.connectToDevice envC4).step = 1 ∧
      ((DeviceSetup.connectToDevice envC4).errorMsg).isSome = true) := by
  refine ⟨(C4_amended_connect_step envC4w).2.1 rfl _ rfl, ?_, ?_⟩
  · exact ((C4_amended_connect_step envC4).2.2 rfl rfl).1
  · exact ((C4_amended_connect_step envC4).2.2 rfl rfl).2.2 rfl (by decide)

/-- Environment of the C9 scenario: the first two reads return empty payloads
and the third read parses to a response with networks HomeNet and Guest. -/
def envC9 : ConnectEnv :=
  ⟨true, none,
    ⟨none, fun k =>
      if k = 2 then ReadOutcome.json ⟨none, none, some ["HomeNet", "Guest"], none⟩
      else ReadOutcome.empty⟩⟩

/-- C9: when the first two scan reads yield empty payloads and the third read
returns a response with networks HomeNet and Guest, the engine performs
exactly three reads, stores exactly those two SSIDs in that order, surfaces no
error, and advances to the ConfigureWifi step. -/
theorem C9_scan_third_attempt :
    (scanWifiNetworks envC9.scanEnv).networksSet = some ["HomeNet", "Guest"] ∧
    (scanWifiNetworks envC9.scanEnv).readsCount = 3 ∧
    (DeviceSetup.connectToDevice envC9).step = 1 ∧
    (DeviceSetup.connectToDevice envC9).errorMsg = none ∧
    (DeviceSetup.connectToDevice envC9).networksSet = some ["HomeNet", "Guest"] := by
  exact ⟨rfl, rfl, rfl, rfl, rfl⟩

/-- Truthiness of response?.status: a missing response, a missing status field,
or an empty-string status is falsy. -/
def statusTruthy : Option Json → Bool
  | none => false
  | some j => strTruthy j.status

/-- Truthiness of macResponse?.mac. -/
def macTruthy : Option Json → Bool
  | none => false
  | some j => strTruthy j.mac

/-- Result of the configure_wifi read loop of the device-setup page. -/
structure StatusLoopOut where
  resp : Option Json
  successSet : Bool
  reads : Nat
deriving DecidableEq

/-- The configure_wifi read loop of the device-setup page:
while (retries > 0 && !response?.status) it reads once; a parsed response is
stored in the response variable; a status equal to "success" sets the success
banner and breaks; a status equal to "error" throws, and that throw is caught
by the per-attempt catch and merely logged, like read and parse exceptions. -/
def statusLoopDS (reads : Nat → ReadOutcome) : Nat → Nat → Option Json → StatusLoopOut
  | 0, _, response => ⟨response, false, 0⟩
  | retries + 1, k, response =>
    if statusTruthy response then ⟨response, false, 0⟩
    else
      match reads k with
      | ReadOutcome.json j =>
        if j.status = some "success" then ⟨some j, true, 1⟩
        else
          let out := statusLoopDS reads retries (k + 1) (some j)
          ⟨out.resp, out.successSet, out.reads + 1⟩
      | _ =>
        let out := statusLoopDS reads retries (k + 1) response
        ⟨out.resp, out.successSet, out.reads + 1⟩

/-- Result of the get_mac read loop of the device-setup page. -/
structure MacLoopOut where
  resp : Option Json
  urlSet : Option String
  reads : Nat
deriving DecidableEq

/-- The get_mac read loop of the device-setup page:
while (retries > 0 && !macResponse?.mac) it reads once; on a parsed response
with a truthy mac field, the URL is rewritten with that MAC only when
deviceMac was not already seeded from the URL (the urlParams.has check is the
same condition), then the loop breaks. -/
def macLoopDS (reads : Nat → ReadOutcome) (deviceMac : Option String) :
    Nat → Nat → Option Json → MacLoopOut
  | 0, _, response => ⟨response, none, 0⟩
  | retries + 1, k, response =>
    if macTruthy response then ⟨response, none, 0⟩
    else
      match reads k with
      | ReadOutcome.json j =>
        if strTruthy j.mac then
          ⟨some j, if strTruthy deviceMac then none else j.mac, 1⟩
        else
          let out := macLoopDS reads deviceMac retries (k + 1) (some j)
          ⟨out.resp, out.urlSet, out.reads + 1⟩
      | _ =>
        let out := macLoopDS reads deviceMac retries (k + 1) response
        ⟨out.resp, out.urlSet, out.reads + 1⟩

/-- Environment of one configureWifi call of the device-setup page: the guard
state, the seeded deviceMac, whether the server-info fetch or either BLE write
throws, and the read outcomes of the status loop and of the MAC loop. -/
structure CwEnv where
  hasCharacteristic : Bool
  selectedNetwork : String
  wifiPassword : String
  deviceMac : Option String
  serverInfoErr : Option String
  writeErr : Option String
  statusReads : Nat → ReadOutcome
  macWriteErr : Option String
  macReads : Nat → ReadOutcome

/-- Observable outcome of configureWifi on the device-setup page: the BLE
commands issued in order, whether setActiveStep(2) ran, the surfaced error,
the number of status-loop reads, and the MAC the URL was rewritten with. -/
structure CwTrace where
  commands : List String
  advanced : Bool
  errorMsg : Option String
  statusReadsCount : Nat
  macUrl : Option String
deriving DecidableEq

namespace DeviceSetup

/-- configureWifi of the device-setup page: guards, server-info fetch,
configure_wifi write, status read loop with post-loop guard
(throwing only when the final response has no truthy status), then an
unconditional get_mac exchange, and setActiveStep(2) on completion. The outer
catch surfaces every thrown error; this revision has no GATT heuristic. -/
def configureWifi (env : CwEnv) : CwTrace :=
  if env.hasCharacteristic = false then
    ⟨[], false, some "Bluetooth device not connected", 0, none⟩
  else if jsTruthy env.selectedNetwork = false ∨ jsTruthy env.wifiPassword = false then
    ⟨[], false, some "Please select a network and enter password", 0, none⟩
  else
    match env.serverInfoErr with
    | some m => ⟨[], false, some ("Failed to configure WiFi: " ++ m), 0, none⟩
    | none =>
      match env.writeErr with
      | some m => ⟨["configure_wifi"], false, some ("Failed to configure WiFi: " ++ m), 0, none⟩
      | none =>
        if statusTruthy (statusLoopDS env.statusReads 5 0 none).resp = false then
          ⟨["configure_wifi"], false,
            some "Failed to configure WiFi: Failed to configure WiFi after multiple attempts",
            (statusLoopDS env.statusReads 5 0 none).reads, none⟩
        else
          match env.macWriteErr with
          | some m =>
            ⟨["configure_wifi", "get_mac"], false, some ("Failed to configure WiFi: " ++ m),
              (statusLoopDS env.statusReads 5 0 none).reads, none⟩
          | none =>
            if macTruthy (macLoopDS env.macReads env.deviceMac 5 0 none).resp = false then
              ⟨["configure_wifi", "get_mac"], false,
                some "Failed to configure WiFi: Failed to get device MAC address after multiple attempts",
                (statusLoopDS env.statusReads 5 0 none).reads,
                (macLoopDS env.macReads env.deviceMac 5 0 none).urlSet⟩
            else
              ⟨["configure_wifi", "get_mac"], true, none,
                (statusLoopDS env.statusReads 5 0 none).reads,
                (macLoopDS env.macReads env.deviceMac 5 0 none).urlSet⟩

end DeviceSetup

/-- Environment of one getMacAddress call of the login-page revision: whether
the get_mac write throws, and the outcome of the single read that follows. -/
structure GmEnv where
  writeErr : Option String
  read : ReadOutcome

namespace LoginRev

/-- getMacAddress of the login-page revision: it queries the peer only when no
MAC is known yet; every failure is swallowed and the previously known value is
returned. Returns the resulting MAC, the BLE commands issued, and the URL
update argument when router.replace was called. -/
def getMacAddress (deviceMac : Option String) (env : GmEnv) :
    Option String × List String × Option String :=
  if strTruthy deviceMac then (deviceMac, [], none)
  else
    match env.writeErr with
    | some _ => (deviceMac, ["get_mac"], none)
    | none =>
      match env.read with
      | ReadOutcome.json j =>
        if strTruthy j.mac then (j.mac, ["get_mac"], j.mac)
        else (deviceMac, ["get_mac"], none)
      | _ => (deviceMac, ["get_mac"], none)

end LoginRev

theorem macLoopDS_urlSet (reads : Nat → ReadOutcome) (deviceMac : Option String)
    (hd : strTruthy deviceMac = true) :
    ∀ (retries k : Nat) (r : Option Json),
      (macLoopDS reads deviceMac retries k r).urlSet = none := by
  intro retries
  induction retries with
  | zero => intro k r; rfl
  | succ n ih =>
    intro k r
    simp only [macLoopDS]
    by_cases hresp : macTruthy r
    · simp [hresp]
    · simp only [hresp, Bool.false_eq_true, if_false]
      split
      · rename_i j heq
        by_cases hm : strTruthy j.mac
        · simp [hm, hd]
        · simp only [hm, Bool.false_eq_true, if_false]
          exact ih (k + 1) (some j)
      · exact ih (k + 1) r

/-- Environment of the C5 counterexample: deviceMac already seeded, the
configure_wifi status read succeeds on the first attempt, and the peer
answers the MAC query. -/
def envC5 : CwEnv :=
  ⟨true, "HomeNet", "hunter2", some "AA:BB:CC:DD:EE:FF", none, none,
    fun _ => ReadOutcome.json ⟨some "success", none, none, none⟩,
    none,
    fun _ => ReadOutcome.json ⟨none, none, none, some "AA:BB:CC:DD:EE:FF"⟩⟩

/-- C5 counterexample: with deviceMac already non-null, the device-setup
configureWifi still issues a subsequent get_mac query, refuting the claim that
no subsequent get_mac query is issued once the identifier is known. -/
theorem C5_counterexample :
    envC5.deviceMac = some "AA:BB:CC:DD:EE:FF" ∧
    "get_mac" ∈ (DeviceSetup.configureWifi envC5).commands := by
  exact ⟨rfl, by decide⟩

/-- C5 (amended): once deviceMac is truthy it is never overwritten: the
device-setup configureWifi never rewrites the URL MAC, and the login-page
getMacAddress leaves it unchanged and issues no BLE query; however the
device-setup configureWifi always issues a get_mac query after a completed
configure_wifi status phase, even when deviceMac is already known (merely
ignoring the result), so only the login-page revision avoids the re-query. -/
theorem C5_amended_mac_authoritative :
    (∀ (env : CwEnv), strTruthy env.deviceMac = true →
      (DeviceSetup.configureWifi env).macUrl = none) ∧
    (∀ (env : CwEnv), env.hasCharacteristic = true →
      jsTruthy env.selectedNetwork = true → jsTruthy env.wifiPassword = true →
      env.serverInfoErr = none → env.writeErr = none →
      statusTruthy (statusLoopDS env.statusReads 5 0 none).resp = true →
      "get_mac" ∈ (DeviceSetup.configureWifi env).commands) ∧
    (∀ (mac : String) (genv : GmEnv), jsTruthy mac = true →
      LoginRev.getMacAddress (some mac) genv = (some mac, [], none)) := by
  refine ⟨?_, ?_, ?_⟩
  · intro env hd
    have hurl := macLoopDS_urlSet env.macReads env.deviceMac hd 5 0 none
    simp only [DeviceSetup.configureWifi]
    split
    · rfl
    · split
      · rfl
      · split
        · rfl
        · split
          · rfl
          · split
            · rfl
            · split
              · rfl
              · split
                · exact hurl
                · exact hurl
  · intro env h1 h2 h3 hs hw hst
    simp only [DeviceSetup.configureWifi, h1]
    rw [if_neg (by simp), if_neg (by simp [h2, h3]), hs, hw]
    simp only [hst]
    rw [if_neg (by simp)]
    cases env.macWriteErr with
    | some m => exact List.Mem.tail _ (List.Mem.head _)
    | none =>
      by_cases hmt : macTruthy (macLoopDS env.macReads env.deviceMac 5 0 none).resp = false
      · simp only [hmt, if_true]
        exact List.Mem.tail _ (List.Mem.head _)
      · rw [if_neg hmt]
        exact List.Mem.tail _ (List.Mem.head _)
  · intro mac genv h
    simp [LoginRev.getMacAddress, strTruthy, h]

/-- Witness for C5 (amended): at the concrete environment of the
counterexample the URL MAC is not rewritten, the get_mac query is issued, and
the login-page getMacAddress leaves a known MAC untouched. -/
theorem C5_witness :
    (DeviceSetup.configureWifi envC5).macUrl = none ∧
    "get_mac" ∈ (DeviceSetup.configureWifi envC5).commands ∧
    LoginRev.getMacAddress (some "AA:BB:CC:DD:EE:FF") ⟨none, ReadOutcome.empty⟩ =
      (some "AA:BB:CC:DD:EE:FF", [], none) := by
  refine ⟨C5_amended_mac_authoritative.1 envC5 (by decide),
    C5_amended_mac_authoritative.2.1 envC5 rfl (by decide) (by decide) rfl rfl (by decide),
    C5_amended_mac_authoritative.2.2 "AA:BB:CC:DD:EE:FF" ⟨none, ReadOutcome.empty⟩ (by decide)⟩

/-- Environment of the C10 counterexample: the peer answers the first
configure_wifi status read with a status "error" response. -/
def envC10 : CwEnv :=
  ⟨true, "HomeNet", "hunter2", none, none, none,
    fun _ => ReadOutcome.json ⟨some "error", some "wrong password", none, none⟩,
    none,
    fun _ => ReadOutcome.json ⟨none, none, none, some "AA:BB:CC:DD:EE:FF"⟩⟩

/-- C10 counterexample: a peer response with status "error" on the first read
does not make the exchange retry until exhaustion and fail with the generic
exhaustion message; the loop stops after a single read because the response
status is now set, the post-loop guard passes, no error at all is surfaced,
and the exchange advances. -/
theorem C10_counterexample :
    (DeviceSetup.configureWifi envC10).statusReadsCount = 1 ∧
    (DeviceSetup.configureWifi envC10).advanced = true ∧
    (DeviceSetup.configureWifi envC10).errorMsg = none := by
  exact ⟨rfl, rfl, rfl⟩

theorem statusLoopDS_break (reads : Nat → ReadOutcome) (retries k : Nat) (r : Option Json)
    (h : statusTruthy r = true) :
    statusLoopDS reads (retries + 1) k r = ⟨r, false, 0⟩ := by
  simp [statusLoopDS, h]

theorem statusLoopDS_json_step (reads : Nat → ReadOutcome) (retries k : Nat) (r : Option Json)
    (j : Json) (hr : statusTruthy r = false) (he : reads k = ReadOutcome.json j)
    (hne : ¬ j.status = some "success") :
    statusLoopDS reads (retries + 1) k r =
      ⟨(statusLoopDS reads retries (k + 1) (some j)).resp,
       (statusLoopDS reads retries (k + 1) (some j)).successSet,
       (statusLoopDS reads retries (k + 1) (some j)).reads + 1⟩ := by
  simp [statusLoopDS, hr, he, hne]

/-- C10 (amended): a peer response of status "error" in the configure_wifi
read loop has its thrown error caught by the per-attempt handler, consuming
exactly one read attempt; because the response status is then non-empty, the
loop terminates, the post-loop exhaustion guard passes, the success banner is
not set, and the exchange proceeds to the MAC phase by issuing get_mac rather
than failing. -/
theorem C10_amended_peer_error (env : CwEnv) (j : Json)
    (hchar : env.hasCharacteristic = true)
    (hnet : jsTruthy env.selectedNetwork = true)
    (hpw : jsTruthy env.wifiPassword = true)
    (hsrv : env.serverInfoErr = none)
    (hwr : env.writeErr = none)
    (hr : env.statusReads 0 = ReadOutcome.json j)
    (hst : j.status = some "error") :
    (statusLoopDS env.statusReads 5 0 none).reads = 1 ∧
    (statusLoopDS env.statusReads 5 0 none).successSet = false ∧
    "get_mac" ∈ (DeviceSetup.configureWifi env).commands := by
  have hne : ¬ j.status = some "success" := by rw [hst]; decide
  have htr2 : statusTruthy (some j) = true := by
    simp [statusTruthy, hst, strTruthy, jsTruthy]
  have hbreak : statusLoopDS env.statusReads (3 + 1) 1 (some j) = ⟨some j, false, 0⟩ :=
    statusLoopDS_break env.statusReads 3 1 (some j) htr2
  have hstep := statusLoopDS_json_step env.statusReads 4 0 none j rfl hr hne
  have hloop : statusLoopDS env.statusReads 5 0 none = ⟨some j, false, 1⟩ := by
    have h4 : statusLoopDS env.statusReads 4 (0 + 1) (some j) = ⟨some j, false, 0⟩ := hbreak
    have h5 : statusLoopDS env.statusReads (4 + 1) 0 none = ⟨some j, false, 1⟩ := by
      rw [hstep, h4]
    exact h5
  refine ⟨by rw [hloop], by rw [hloop], ?_⟩
  have htr : statusTruthy (statusLoopDS env.statusReads 5 0 none).resp = true := by
    rw [hloop]
    simp [statusTruthy, strTruthy, hst, jsTruthy]
  simp only [DeviceSetup.configureWifi, hchar]
  rw [if_neg (by simp), if_neg (by simp [hnet, hpw]), hsrv, hwr]
  simp only [htr]
  rw [if_neg (by simp)]
  cases env.macWriteErr with
  | some m => exact List.Mem.tail _ (List.Mem.head _)
  | none =>
    by_cases hmt : macTruthy (macLoopDS env.macReads env.deviceMac 5 0 none).resp = false
    · simp only [hmt, if_true]
      exact List.Mem.tail _ (List.Mem.head _)
    · rw [if_neg hmt]
      exact List.Mem.tail _ (List.Mem.head _)

/-- Witness for C10 (amended): the amended statement instantiated at the
concrete counterexample environment. -/
theorem C10_witness :
    (statusLoopDS envC10.statusReads 5 0 none).reads = 1 ∧
    (statusLoopDS envC10.statusReads 5 0 none).successSet = false ∧
    "get_mac" ∈ (DeviceSetup.configureWifi envC10).commands := by
  exact C10_amended_peer_error envC10 ⟨some "error", some "wrong password", none, none⟩
    rfl (by decide) (by decide) rfl rfl rfl rfl

/-- Result of the configure_wifi read loop of the login-page revision. -/
structure CwlLoopOut where
  resp : Option Json
  wifiConfigured : Bool
  reads : Nat
deriving DecidableEq

/-- The configure_wifi read loop of the login-page revision:
while (retries > 0 && !wifiConfigured) it reads once; a status equal to
"success" sets the banner, sets wifiConfigured and breaks; a status equal to
"error" throws inside the inner JSON try, so the inner catch merely logs it;
a read exception whose message contains "GATT operation failed" sets
wifiConfigured and breaks, and any other read exception is logged as a
consumed attempt. -/
def cwLoopLogin (reads : Nat → ReadOutcome) : Nat → Nat → Option Json → CwlLoopOut
  | 0, _, response => ⟨response, false, 0⟩
  | retries + 1, k, response =>
      match reads k with
      | ReadOutcome.raise msg =>
        if jsIncludes msg "GATT operation failed" then ⟨response, true, 1⟩
        else
          let out := cwLoopLogin reads retries (k + 1) response
          ⟨out.resp, out.wifiConfigured, out.reads + 1⟩
      | ReadOutcome.json j =>
        if j.status = some "success" then ⟨some j, true, 1⟩
        else
          let out := cwLoopLogin reads retries (k + 1) (some j)
          ⟨out.resp, out.wifiConfigured, out.reads + 1⟩
      | _ =>
        let out := cwLoopLogin reads retries (k + 1) response
        ⟨out.resp, out.wifiConfigured, out.reads + 1⟩

/-- Environment of one configureWifi call of the login-page revision. -/
structure CwLEnv where
  hasCharacteristic : Bool
  selectedNetwork : String
  wifiPassword : String
  deviceMac : Option String
  serverInfoErr : Option String
  writeErr : Option String
  reads : Nat → ReadOutcome

/-- Observable outcome of configureWifi on the login-page revision. -/
structure CwLTrace where
  advanced : Bool
  errorMsg : Option String
  successMsg : Option String
  readsCount : Nat
deriving DecidableEq

namespace LoginRev

/-- The outer catch of the login-page configureWifi: an error whose message
contains "GATT operation failed" is reclassified as success, and then the step
advances only when a deviceMac is known, otherwise a fatal restart error is
surfaced; any other error is surfaced with the generic prefix. -/
def cwCatch (deviceMac : Option String) (m : String) (reads : Nat) : CwLTrace :=
  if jsIncludes m "GATT operation failed" then
    if strTruthy deviceMac then ⟨true, none, some "WiFi configured successfully!", reads⟩
    else
      ⟨false,
        some "Device disconnected. Please restart the setup process with a device MAC address.",
        some "WiFi configured successfully!", reads⟩
  else ⟨false, some ("Failed to configure WiFi: " ++ m), none, reads⟩

/-- configureWifi of the login-page revision: guards, server-info fetch,
configure_wifi write, the read loop with the inner GATT heuristic, the
post-loop fallback that proceeds on a known deviceMac, and the outer catch.
This revision has no MAC phase: the MAC was fetched during Connect. -/
def configureWifi (env : CwLEnv) : CwLTrace :=
  if env.hasCharacteristic = false then
    ⟨false, some "Bluetooth device not connected", none, 0⟩
  else if jsTruthy env.selectedNetwork = false ∨ jsTruthy env.wifiPassword = false then
    ⟨false, some "Please select a network and enter password", none, 0⟩
  else
    match env.serverInfoErr with
    | some m => cwCatch env.deviceMac m 0
    | none =>
      match env.writeErr with
      | some m => cwCatch env.deviceMac m 0
      | none =>
        if (cwLoopLogin env.reads 5 0 none).wifiConfigured then
          ⟨true, none, some "WiFi configured successfully!",
            (cwLoopLogin env.reads 5 0 none).reads⟩
        else if strTruthy env.deviceMac then
          ⟨true, none, some "WiFi configuration sent. Proceeding with setup.",
            (cwLoopLogin env.reads 5 0 none).reads⟩
        else
          cwCatch env.deviceMac "Could not confirm WiFi configuration"
            (cwLoopLogin env.reads 5 0 none).reads

end LoginRev

theorem cwLoopLogin_gatt (reads : Nat → ReadOutcome) (retries k : Nat) (r : Option Json)
    (msg : String) (he : reads k = ReadOutcome.raise msg)
    (hg : jsIncludes msg "GATT operation failed" = true) :
    cwLoopLogin reads (retries + 1) k r = ⟨r, true, 1⟩ := by
  simp [cwLoopLogin, he, hg]

/-- Environment of the C2 counterexample: no deviceMac is known and the first
read of the configure_wifi loop rejects with a GATT-operation failure. -/
def envC2 : CwLEnv :=
  ⟨true, "HomeNet", "hunter2", none, none, none,
    fun _ => ReadOutcome.raise "GATT operation failed: not connected"⟩

/-- C2 counterexample: a configure_wifi exchange that raises a GATT-operation
failure during a read attempt with deviceMac unknown does not report a fatal
error: the inner per-attempt catch treats it as success and the engine
advances to Register anyway, refuting the claim that an unknown device
identifier makes such an exception fatal. -/
theorem C2_counterexample :
    envC2.deviceMac = none ∧
    (LoginRev.configureWifi envC2).advanced = true ∧
    (LoginRev.configureWifi envC2).errorMsg = none := by
  exact ⟨rfl, rfl, rfl⟩

/-- C2 (amended): the deviceMac-guarded classification applies only to
transport errors that escape the read loop (the server-info fetch or the
configure_wifi write): there a GATT-operation failure advances to Register
when deviceMac is known and is fatal without advancing when it is unknown.
A GATT-operation failure raised by a read attempt inside the loop is instead
treated as success by the per-attempt catch and advances to Register
regardless of whether deviceMac is known. -/
theorem C2_amended_gatt_heuristic :
    (∀ (env : CwLEnv) (m : String), env.hasCharacteristic = true →
      jsTruthy env.selectedNetwork = true → jsTruthy env.wifiPassword = true →
      env.serverInfoErr = none → env.writeErr = some m →
      jsIncludes m "GATT operation failed" = true →
      (strTruthy env.deviceMac = true →
        (LoginRev.configureWifi env).advanced = true ∧
        (LoginRev.configureWifi env).errorMsg = none) ∧
      (strTruthy env.deviceMac = false →
        (LoginRev.configureWifi env).advanced = false ∧
        (LoginRev.configureWifi env).errorMsg =
          some "Device disconnected. Please restart the setup process with a device MAC address.")) ∧
    (∀ (env : CwLEnv) (msg : String), env.hasCharacteristic = true →
      jsTruthy env.selectedNetwork = true → jsTruthy env.wifiPassword = true →
      env.serverInfoErr = none → env.writeErr = none →
      env.reads 0 = ReadOutcome.raise msg →
      jsIncludes msg "GATT operation failed" = true →
      (LoginRev.configureWifi env).advanced = true ∧
      (LoginRev.configureWifi env).errorMsg = none) := by
  constructor
  · intro env m hchar hnet hpw hsrv hwr hg
    simp only [LoginRev.configureWifi, hchar]
    rw [if_neg (by simp), if_neg (by simp [hnet, hpw]), hsrv, hwr]
    constructor
    · intro hd
      simp [LoginRev.cwCatch, hg, hd]
    · intro hd
      simp [LoginRev.cwCatch, hg, hd]
  · intro env msg hchar hnet hpw hsrv hwr hr hg
    have h5 : cwLoopLogin env.reads 5 0 none = ⟨none, true, 1⟩ :=
      cwLoopLogin_gatt env.reads 4 0 none msg hr hg
    simp only [LoginRev.configureWifi, hchar]
    rw [if_neg (by simp), if_neg (by simp [hnet, hpw]), hsrv, hwr]
    simp [h5]

/-- Witness for C2 (amended): a GATT failure of the configure_wifi write with
a known MAC advances, with no MAC it is fatal, and a GATT failure of the first
read advances even with no MAC. -/
theorem C2_witness :
    ((LoginRev.configureWifi
        ⟨true, "HomeNet", "hunter2", some "AA:BB:CC:DD:EE:FF", none,
          some "GATT operation failed: write rejected", fun _ => ReadOutcome.empty⟩).advanced
          = true) ∧
    ((LoginRev.configureWifi
        ⟨true, "HomeNet", "hunter2", none, none,
          some "GATT operation failed: write rejected", fun _ => ReadOutcome.empty⟩).advanced
          = false) ∧
    ((LoginRev.configureWifi
        ⟨true, "HomeNet", "hunter2", none, none, none,
          fun _ => ReadOutcome.raise "GATT operation failed: not connected"⟩).advanced
          = true) := by
  refine ⟨?_, ?_, ?_⟩
  · exact ((C2_amended_gatt_heuristic.1 _ "GATT operation failed: write rejected"
      rfl (by decide) (by decide) rfl rfl (by decide)).1 (by decide)).1
  · exact ((C2_amended_gatt_heuristic.1 _ "GATT operation failed: write rejected"
      rfl (by decide) (by decide) rfl rfl (by decide)).2 (by decide)).1
  · exact (C2_amended_gatt_heuristic.2 _ "GATT operation failed: not connected"
      rfl (by decide) (by decide) rfl rfl rfl (by decide)).1

/-- Helper of the trim model: drops leading whitespace characters. -/
def dropWhileWs : List Char → List Char
  | [] => []
  | c :: cs => if c.isWhitespace then dropWhileWs cs else c :: cs

/-- Model of the JavaScript String.prototype.trim: strips leading and trailing
whitespace. -/
def jsTrim (s : String) : String :=
  ⟨((dropWhileWs s.data).reverse |> dropWhileWs).reverse⟩

/-- Environment of one registerDevice call of the device-setup page: the
entered name, the URL-seeded MAC, the backend response, and whether the peer
is still connected. -/
structure RegEnv where
  deviceName : String
  deviceMac : Option String
  backendOk : Bool
  backendDetail : String
  connected : Bool

/-- Observable outcome of a registerDevice call: whether the backend
POST /devices was issued, the surfaced error, whether the step advanced to
Done, the BLE commands sent to the peer, and whether a GATT disconnect was
requested. -/
structure RegTrace where
  backendCalled : Bool
  errorMsg : Option String
  advanced : Bool
  bleCommands : List String
  disconnected : Bool
deriving DecidableEq

namespace DeviceSetup

/-- registerDevice of the device-setup page: rejects an empty or
whitespace-only name and a missing MAC locally before any network call; then
POSTs to /devices; on a 2xx it advances to Done and disconnects the peer if
still connected. This revision sends no register_device BLE command. -/
def registerDevice (env : RegEnv) : RegTrace :=
  if jsTrim env.deviceName = "" then
    ⟨false, some "Please enter a device name", false, [], false⟩
  else if strTruthy env.deviceMac = false then
    ⟨false, some "Device MAC address is required. Please restart the setup process.",
      false, [], false⟩
  else if env.backendOk then ⟨true, none, true, [], env.connected⟩
  else ⟨true, some ("Failed to register device: " ++ env.backendDetail), false, [], false⟩

end DeviceSetup

/-- Environment of one registerDevice call of the login-page revision: as for
the device-setup page, plus the environment of the MAC re-query and whether
the register_device notification write throws. -/
structure RegLEnv where
  deviceName : String
  deviceMac : Option String
  connected : Bool
  hasCharacteristic : Bool
  gmEnv : GmEnv
  backendOk : Bool
  backendDetail : String
  notifyErr : Option String

namespace LoginRev

/-- registerDevice of the login-page revision: rejects an empty name; with no
truthy MAC it re-queries the peer when still connected; rejects when the MAC
is still unknown; then POSTs to /devices; on success it best-effort notifies
the still-connected peer with register_device — a failure of that write is
caught and only logged, so the outcome does not depend on notifyErr — then
advances to Done and disconnects a still-connected peer. -/
def registerDevice (env : RegLEnv) : RegTrace :=
  if jsTrim env.deviceName = "" then
    ⟨false, some "Please enter a device name", false, [], false⟩
  else
    let fetch :=
      if !strTruthy env.deviceMac && env.connected && env.hasCharacteristic then
        getMacAddress env.deviceMac env.gmEnv
      else (env.deviceMac, [], none)
    if strTruthy fetch.1 = false then
      ⟨false, some "Could not get device MAC address. Please try again.", false,
        fetch.2.1, false⟩
    else if env.backendOk = false then
      ⟨true, some ("Failed to register device: " ++ env.backendDetail), false,
        fetch.2.1, false⟩
    else if env.connected && env.hasCharacteristic then
      ⟨true, none, true, fetch.2.1 ++ ["register_device"], env.connected⟩
    else ⟨true, none, true, fetch.2.1, env.connected⟩

end LoginRev

/-- C6: a Register invocation with an empty or whitespace-only deviceName, or
with deviceMac null, is rejected locally with an error and no backend
registration call; the POST /devices call is issued only when deviceMac is
truthy (hence non-null) and the trimmed deviceName is non-empty. -/
theorem C6_register_guards (env : RegEnv) :
    (jsTrim env.deviceName = "" →
      (DeviceSetup.registerDevice env).backendCalled = false ∧
      (DeviceSetup.registerDevice env).errorMsg = some "Please enter a device name") ∧
    (env.deviceMac = none →
      (DeviceSetup.registerDevice env).backendCalled = false ∧
      ((DeviceSetup.registerDevice env).errorMsg).isSome = true) ∧
    ((DeviceSetup.registerDevice env).backendCalled = true →
      strTruthy env.deviceMac = true ∧ jsTrim env.deviceName ≠ "") := by
  refine ⟨?_, ?_, ?_⟩
  · intro h
    simp [DeviceSetup.registerDevice, h]
  · intro h
    by_cases hn : jsTrim env.deviceName = ""
    · simp [DeviceSetup.registerDevice, hn]
    · simp [DeviceSetup.registerDevice, hn, h, strTruthy]
  · intro h
    by_cases hn : jsTrim env.deviceName = ""
    · simp [DeviceSetup.registerDevice, hn] at h
    · by_cases hm : strTruthy env.deviceMac = false
      · simp [DeviceSetup.registerDevice, hn, hm] at h
      · have hm2 : strTruthy env.deviceMac = true := by
          revert hm
          cases strTruthy env.deviceMac <;> simp
        exact ⟨hm2, hn⟩

/-- Witness for C6: a whitespace-only name and a missing MAC are each rejected
without a backend call, and a successful call implies the guards held. -/
theorem C6_witness :
    ((DeviceSetup.registerDevice ⟨"   ", some "AA:BB:CC:DD:EE:FF", true, "", true⟩).backendCalled
        = false) ∧
    ((DeviceSetup.registerDevice ⟨"Living Room Bot", none, true, "", true⟩).backendCalled
        = false) ∧
    (strTruthy (some "AA:BB:CC:DD:EE:FF") = true ∧
      jsTrim "Living Room Bot" ≠ "") := by
  refine ⟨?_, ?_, ?_⟩
  · exact ((C6_register_guards ⟨"   ", some "AA:BB:CC:DD:EE:FF", true, "", true⟩).1
      (by decide)).1
  · exact ((C6_register_guards ⟨"Living Room Bot", none, true, "", true⟩).2.1 rfl).1
  · exact (C6_register_guards ⟨"Living Room Bot", some "AA:BB:CC:DD:EE:FF", true, "", true⟩).2.2
      (by decide)

/-- Environment of the C7 counterexample: a valid registration with the peer
still connected, on the device-setup page. -/
def envC7 : RegEnv := ⟨"Living Room Bot", some "AA:BB:CC:DD:EE:FF", true, "", true⟩

/-- C7 counterexample: on the device-setup page a successful registration with
the peer still connected sends no register_device notification at all (yet
still advances to Done), refuting the claim that the engine best-effort
notifies the still-connected peer. -/
theorem C7_counterexample :
    envC7.connected = true ∧
    (DeviceSetup.registerDevice envC7).advanced = true ∧
    (DeviceSetup.registerDevice envC7).bleCommands = [] := by
  exact ⟨rfl, rfl, rfl⟩

/-- C7 (amended): in the login-page revision, a successful backend
registration best-effort notifies a still-connected peer with register_device
and advances to Done with no error, for every notification outcome (the write
failure is swallowed), and sends nothing when the peer is disconnected; the
device-setup revision also advances to Done on backend success but never sends
a register_device notification. -/
theorem C7_amended_register_notify :
    (∀ (env : RegLEnv), jsTrim env.deviceName ≠ "" → strTruthy env.deviceMac = true →
      env.backendOk = true →
      (LoginRev.registerDevice env).advanced = true ∧
      (LoginRev.registerDevice env).errorMsg = none ∧
      ((env.connected && env.hasCharacteristic) = true →
        (LoginRev.registerDevice env).bleCommands = ["register_device"]) ∧
      ((env.connected && env.hasCharacteristic) = false →
        (LoginRev.registerDevice env).bleCommands = [])) ∧
    (∀ (env : RegEnv), jsTrim env.deviceName ≠ "" → strTruthy env.deviceMac = true →
      env.backendOk = true →
      (DeviceSetup.registerDevice env).advanced = true ∧
      (DeviceSetup.registerDevice env).bleCommands = []) := by
  constructor
  · intro env hname hmac hok
    have hfetch : (!strTruthy env.deviceMac && env.connected && env.hasCharacteristic) = false := by
      simp [hmac]
    simp only [LoginRev.registerDevice]
    rw [if_neg hname, if_neg (by simp [hfetch, hmac]), if_neg (by simp [hok])]
    by_cases hc : (env.connected && env.hasCharacteristic) = true
    · rw [if_pos hc]
      refine ⟨rfl, rfl, fun _ => by simp [hfetch], fun hcontra => ?_⟩
      rw [hc] at hcontra
      cases hcontra
    · rw [if_neg hc]
      refine ⟨rfl, rfl, fun hcontra => absurd hcontra hc, fun _ => by simp [hfetch]⟩
  · intro env hname hmac hok
    simp [DeviceSetup.registerDevice, hname, hmac, hok]

/-- Witness for C7 (amended): a registration with a failing notification write
still advances with no error and the notification was attempted, and the
device-setup page advances without sending anything. -/
theorem C7_witness :
    ((LoginRev.registerDevice
        ⟨"Living Room Bot", some "AA:BB:CC:DD:EE:FF", true, true, ⟨none, ReadOutcome.empty⟩,
          true, "", some "GATT operation failed: disconnected"⟩).advanced = true) ∧
    ((LoginRev.registerDevice
        ⟨"Living Room Bot", some "AA:BB:CC:DD:EE:FF", true, true, ⟨none, ReadOutcome.empty⟩,
          true, "", some "GATT operation failed: disconnected"⟩).bleCommands
        = ["register_device"]) ∧
    ((DeviceSetup.registerDevice ⟨"Kitchen Bot", some "11:22:33:44:55:66", true, "", false⟩).advanced
        = true) := by
  refine ⟨?_, ?_, ?_⟩
  · exact (C7_amended_register_notify.1 _ (by decide) (by decide) rfl).1
  · exact (C7_amended_register_notify.1
      ⟨"Living Room Bot", some "AA:BB:CC:DD:EE:FF", true, true, ⟨none, ReadOutcome.empty⟩,
        true, "", some "GATT operation failed: disconnected"⟩
      (by decide) (by decide) rfl).2.2.1 rfl
  · exact (C7_amended_register_notify.2 ⟨"Kitchen Bot", some "11:22:33:44:55:66", true, "", false⟩
      (by decide) (by decide) rfl).1

/-- Abstract handles of one BLE pairing session as stored in the
bluetoothDevice state; the model is parametric in the handle type so the
frame property covers the handles themselves. -/
structure BluetoothDevice (α : Type) where
  device : α
  server : α
  service : α
  characteristic : α

/-- The component state of the device-setup page that the step handlers can
mutate, plus the URL-derived deviceMac parameter. -/
structure PageState (α : Type) where
  activeStep : Nat
  loading : Bool
  errorMsg : Option String
  successMsg : Option String
  deviceName : String
  wifiNetworks : List String
  selectedNetwork : String
  wifiPassword : String
  bluetoothDevice : Option (BluetoothDevice α)
  registeredDeviceId : Option String
  deviceMacParam : Option String

/-- handleBack of both page revisions: setActiveStep(prevStep - 1) and nothing
else; the second component is the list of BLE operations performed (none). -/
def handleBack {α : Type} (s : PageState α) : PageState α × List String :=
  ({ s with activeStep := s.activeStep - 1 }, [])

/-- C8: back navigation from steps 1 or 2 decreases the step index by exactly
one and changes nothing else: the BLE session handles and every provisioning
context field (deviceMac, deviceName, selectedNetwork, wifiPassword,
wifiNetworks) are unchanged, and no BLE operation — in particular no
disconnect or teardown — is performed. -/
theorem C8_handleBack_frame {α : Type} (s : PageState α)
    (h1 : 1 ≤ s.activeStep) (h2 : s.activeStep ≤ 2) :
    (handleBack s).1.activeStep + 1 = s.activeStep ∧
    (handleBack s).1.bluetoothDevice = s.bluetoothDevice ∧
    (handleBack s).1.deviceMacParam = s.deviceMacParam ∧
    (handleBack s).1.deviceName = s.deviceName ∧
    (handleBack s).1.wifiNetworks = s.wifiNetworks ∧
    (handleBack s).1.selectedNetwork = s.selectedNetwork ∧
    (handleBack s).1.wifiPassword = s.wifiPassword ∧
    (handleBack s).1.errorMsg = s.errorMsg ∧
    (handleBack s).1.successMsg = s.successMsg ∧
    (handleBack s).1.registeredDeviceId = s.registeredDeviceId ∧
    (handleBack s).2 = [] := by
  refine ⟨?_, rfl, rfl, rfl, rfl, rfl, rfl, rfl, rfl, rfl, rfl⟩
  simp only [handleBack]
  omega

/-- Concrete page state at step 2 with a live session, for the C8 witness. -/
def stateC8 : PageState Unit :=
  ⟨2, false, none, some "WiFi configured successfully!", "Living Room Bot",
    ["HomeNet", "Guest"], "HomeNet", "hunter2", some ⟨(), (), (), ()⟩, none,
    some "AA:BB:CC:DD:EE:FF"⟩

/-- Witness for C8: at a concrete step-2 state, back navigation moves to step
1, keeps the session and context, and performs no BLE operation. -/
theorem C8_witness :
    1 ≤ stateC8.activeStep ∧
    (handleBack stateC8).1.activeStep + 1 = stateC8.activeStep ∧
    (handleBack stateC8).1.bluetoothDevice = stateC8.bluetoothDevice ∧
    (handleBack stateC8).2 = [] := by
  have h := C8_handleBack_frame stateC8 (by decide) (by decide)
  exact ⟨by decide, h.1, h.2.1, h.2.2.2.2.2.2.2.2.2.2⟩

end FingerBot
